import Mathlib

/-!
Shallow embedding of the webora-crypt dashboard.

Source files:
* `src/src/app/api/pumpswap/route.ts` — the proxy endpoint (`GET`).
* `src/unnamed/part_000` — the PumpSwap detail page (`PumpSwapPage`) and the
  static home page.

JS numbers are modelled as `ℚ` (none of the modelled code paths produce
NaN/Infinity, so JS truthiness of a number is "nonzero"), JSON values by the
inductive `Json`, and the React component as a state machine: `PageState` is
the tuple of `useState` cells, `step` covers the state-setter call sites, and
the `render*` functions are the JSX tree the component returns, abstracted to
the data the claims talk about (text shown, green/red styling, which branch
of each conditional renders).  Rational arithmetic inside the formatting
helpers is written over `Rat.num`/`Rat.den` with `Int` operations so that
every definition evaluates by kernel reduction.
-/

/-- JSON values, as produced by `response.json()`. -/
inductive Json where
  | null
  | bool (b : Bool)
  | num (q : ℚ)
  | str (s : String)
  | arr (elems : List Json)
  | obj (fields : List (String × Json))

/-- Result of the upstream `fetch` once it has resolved: the HTTP status and
the body, `none` when `response.json()` would throw (invalid JSON). -/
structure UpstreamResponse where
  status : Nat
  body : Option Json

/-- HTTP response produced by the route handler: status code and JSON body. -/
structure ApiResponse where
  status : Nat
  body : Json

/-- The fixed error body built in the `catch` branch of the route handler:
a JSON object whose single field `error` holds the string
`Failed to fetch data from DefiLlama`. -/
def errorEnvelope : Json :=
  .obj [("error", .str "Failed to fetch data from DefiLlama")]

/-- `GET` from `src/src/app/api/pumpswap/route.ts`.  The argument is the
outcome of the upstream fetch: `none` when the fetch itself rejects (network
error), otherwise the resolved response.  `response.ok` means status
200–299; a non-ok status makes the handler throw into its `catch`, as does a
body that fails to parse, and the `catch` returns `errorEnvelope` with
status 500.  On success `NextResponse.json(data)` replies with status 200. -/
def GET (upstream : Option UpstreamResponse) : ApiResponse :=
  match upstream with
  | none => ⟨500, errorEnvelope⟩
  | some response =>
    if 200 ≤ response.status ∧ response.status ≤ 299 then
      match response.body with
      | some data => ⟨200, data⟩
      | none => ⟨500, errorEnvelope⟩
    else ⟨500, errorEnvelope⟩

/-- The optional-field snapshot the page reads (`interface PumpSwapData`).
`chainTvls` is a JS object, modelled as an association list in insertion
order (the order `Object.entries` yields). -/
structure PumpSwapData where
  name : Option String := none
  description : Option String := none
  tvl : Option ℚ := none
  chainTvls : Option (List (String × ℚ)) := none
  change_1d : Option ℚ := none
  change_7d : Option ℚ := none
  change_1m : Option ℚ := none
  category : Option String := none
  tvlPrevDay : Option ℚ := none
  tvlPrevWeek : Option ℚ := none
  tvlPrevMonth : Option ℚ := none

/-- `interface ChartDataPoint`: a Unix timestamp in seconds and a TVL value. -/
structure ChartDataPoint where
  date : Int
  totalLiquidityUSD : ℚ
deriving DecidableEq

/-- Two-digit zero padding for the fractional part of `toFixed(2)`. -/
def pad2 (n : Nat) : String :=
  if n < 10 then "0" ++ toString n else toString n

/-- `toFixed(2)` for a nonnegative rational: the integer `m` with `m / 100`
closest to `q`, ties rounded up (the ES spec picks the larger candidate), is
`⌊100 * q + 1 / 2⌋`, computed here as `(200 * q.num + q.den).fdiv (2 * q.den)`
to stay in `Int` arithmetic; it is then printed with two decimal digits. -/
def jsToFixed2Nonneg (q : ℚ) : String :=
  let m : Nat := ((200 * q.num + (q.den : Int)).fdiv (2 * (q.den : Int))).toNat
  toString (m / 100) ++ "." ++ pad2 (m % 100)

/-- `Number.prototype.toFixed(2)`: a leading minus sign for negative input,
then the rounded magnitude. -/
def jsToFixed2 (q : ℚ) : String :=
  if q < 0 then "-" ++ jsToFixed2Nonneg q.neg else jsToFixed2Nonneg q

/-- Grouping step of `Intl.NumberFormat`: working on a reversed digit list,
insert a comma after every three digits. -/
def groupRev : List Char → List Char
  | a :: b :: c :: d :: rest => a :: b :: c :: ',' :: groupRev (d :: rest)
  | l => l

/-- Insert en-US thousands separators into a digit string. -/
def insertCommas (s : String) : String :=
  String.mk (groupRev s.toList.reverse).reverse

/-- Rounding used by `Intl.NumberFormat` with `maximumFractionDigits: 0` on a
nonnegative value: round half away from zero, i.e. `⌊q + 1 / 2⌋`, computed as
`(2 * q.num + q.den).fdiv (2 * q.den)` in `Int` arithmetic. -/
def roundHalf (q : ℚ) : Nat :=
  ((2 * q.num + (q.den : Int)).fdiv (2 * (q.den : Int))).toNat

/-- `formatCurrency` from the page: `Intl.NumberFormat` with locale `en-US`,
`style: currency`, `currency: USD`, `maximumFractionDigits: 0`.  A dollar
sign, thousands separators, no fraction digits, minus sign in front of the
dollar sign for negative values. -/
def formatCurrency (value : ℚ) : String :=
  if value < 0 then "-$" ++ insertCommas (toString (roundHalf value.neg))
  else "$" ++ insertCommas (toString (roundHalf value))

/-- Gregorian calendar date (year, month, day) of a day count relative to
1970-01-01, the standard civil-from-days conversion with truncating `Int`
division as in the usual C formulation. -/
def civilFromDays (z0 : Int) : Int × Int × Int :=
  let z := z0 + 719468
  let era := Int.tdiv (if 0 ≤ z then z else z - 146096) 146097
  let doe := z - era * 146097
  let yoe := Int.tdiv (doe - Int.tdiv doe 1460 + Int.tdiv doe 36524 - Int.tdiv doe 146096) 365
  let y := yoe + era * 400
  let doy := doe - (365 * yoe + Int.tdiv yoe 4 - Int.tdiv yoe 100)
  let mp := Int.tdiv (5 * doy + 2) 153
  let d := doy - Int.tdiv (153 * mp + 2) 5 + 1
  let m := if mp < 10 then mp + 3 else mp - 9
  (if m ≤ 2 then y + 1 else y, m, d)

/-- `formatDate` from the page: `new Date(timestamp * 1000)` rendered by
`toLocaleDateString` with locale `en-US` and numeric month and day, i.e.
`M/D`.  The calendar day is taken in UTC (offset-zero run of the page). -/
def formatDate (timestamp : Int) : String :=
  let dayCount := Int.fdiv timestamp 86400
  let ymd := civilFromDays dayCount
  toString ymd.2.1 ++ "/" ++ toString ymd.2.2

/-- One Chart.js dataset, abstracted to the fields the data flow determines:
the label and the y-values (the remaining fields of the source literal are
fixed styling constants). -/
structure ChartDataset where
  label : String
  data : List ℚ
deriving DecidableEq

/-- The object `prepareChartData` returns: x-axis labels and the datasets. -/
structure ChartJsData where
  labels : List String
  datasets : List ChartDataset
deriving DecidableEq

/-- JS `arr.slice(-k)`: the last `min k arr.length` elements, in order. -/
def jsSliceLast (l : List ChartDataPoint) (k : Nat) : List ChartDataPoint :=
  l.drop (l.length - k)

/-- `prepareChartData` from the page: take the last 30 chart points, label
them with `formatDate`, and build the single TVL dataset from their
`totalLiquidityUSD` values. -/
def prepareChartData (chartData : List ChartDataPoint) : ChartJsData :=
  let recentData := jsSliceLast chartData 30
  { labels := recentData.map (fun item => formatDate item.date),
    datasets := [{ label := "Total Value Locked (TVL)",
                   data := recentData.map (fun item => item.totalLiquidityUSD) }] }

/-- The chart slot of the page: either the `Line` renderer applied to the
prepared data, or the placeholder paragraph. -/
inductive ChartArea where
  | chart (data : ChartJsData)
  | placeholder (text : String)
deriving DecidableEq

/-- The conditional around the `Line` component: render the chart when
`chartData.length > 0`, otherwise the literal placeholder text. -/
def renderChartArea (chartData : List ChartDataPoint) : ChartArea :=
  if 0 < chartData.length then .chart (prepareChartData chartData)
  else .placeholder "No chart data available"

/-- One performance badge: whether the green classes (`bg-green-50`,
`text-green-600`) are applied rather than the red ones, and the text shown. -/
structure Badge where
  green : Bool
  text : String
deriving DecidableEq

/-- One badge of the Performance card.  The source guards both the color and
the text with JS truthiness of the change value: the color condition is
`change && change >= 0`, the text is `change ? change.toFixed(2) + "%" : "N/A"`.
A present value of `0` is falsy, so it takes the red/`N/A` branches. -/
def changeBadge (change : Option ℚ) : Badge :=
  match change with
  | none => ⟨false, "N/A"⟩
  | some q => ⟨decide (q ≠ 0) && decide (0 ≤ q),
               if q ≠ 0 then jsToFixed2 q ++ "%" else "N/A"⟩

/-- The three badges of the Performance card: 24h, 7d, 30d. -/
def renderPerformance (d : PumpSwapData) : Badge × Badge × Badge :=
  (changeBadge d.change_1d, changeBadge d.change_7d, changeBadge d.change_1m)

/-- The page header: the `h1` text and, when the TVL block renders, its
formatted currency string. -/
structure Header where
  title : Option String
  tvlDisplay : Option String
deriving DecidableEq

/-- The header JSX: `h1` shows `data.name`; the TVL block is guarded by JS
truthiness of `data.tvl` (`data.tvl && (...)`), so it renders only for a
present nonzero value, and then shows `formatCurrency(data.tvl)`. -/
def renderHeader (d : PumpSwapData) : Header :=
  ⟨d.name,
   match d.tvl with
   | none => none
   | some v => if v ≠ 0 then some (formatCurrency v) else none⟩

/-- The Chain Distribution section: `none` when the section does not render;
otherwise one `(chain, formatCurrency value)` card per entry.  The guard in
the source is `data.chainTvls && Object.keys(data.chainTvls).length > 0`. -/
def renderChainGrid (d : PumpSwapData) : Option (List (String × String)) :=
  match d.chainTvls with
  | none => none
  | some entries =>
    if 0 < entries.length then
      some (entries.map (fun e => (e.1, formatCurrency e.2)))
    else none

/-- The `useState` cells of `PumpSwapPage`, in declaration order. -/
structure PageState where
  data : Option PumpSwapData
  chartData : List ChartDataPoint
  loading : Bool
  error : Option String
  activeTab : String

/-- The initial state: `data = null`, `chartData = []`, `loading = true`,
`error = null`, `activeTab = "tvl"`. -/
def initialState : PageState :=
  ⟨none, [], true, none, "tvl"⟩

/-- The events that drive the component: the fetch in `useEffect` resolving
(with the parsed JSON, `none` for a `null` body) or failing, and a tab
button click. -/
inductive PageEvent where
  | fetchSuccess (result : Option PumpSwapData)
  | fetchFailure
  | selectTab (tab : String)

/-- The state-setter calls of the component.  `fetchSuccess` performs
`setData(result)` then `setLoading(false)` (the `finally` block);
`fetchFailure` performs `setError(...)` then `setLoading(false)`;
`selectTab` performs `setActiveTab`.  `setChartData` is never called. -/
def step (s : PageState) : PageEvent → PageState
  | .fetchSuccess result => ⟨result, s.chartData, false, s.error, s.activeTab⟩
  | .fetchFailure => ⟨s.data, s.chartData, false, some "Failed to load PumpSwap data", s.activeTab⟩
  | .selectTab t => ⟨s.data, s.chartData, s.loading, s.error, t⟩

/-- States the component can be in: the initial state followed by any
sequence of events. -/
def reachable (s : PageState) : Prop :=
  ∃ es : List PageEvent, s = es.foldl step initialState

/-- The top-level page, abstracted to which branch of the
`loading ? ... : error ? ... : data ? ... : ...` chain renders and what that
branch shows. -/
inductive PageView where
  | loadingView
  | errorView (msg : String)
  | readyView (hd : Header) (chart : ChartArea) (perf : Badge × Badge × Badge)
      (chainGrid : Option (List (String × String)))
  | noData
deriving DecidableEq

/-- The return value of `PumpSwapPage` for a given state.  `data` is an
object or `null`, so its JS truthiness is `isSome`; an empty object is
truthy. -/
def renderPage (s : PageState) : PageView :=
  if s.loading then .loadingView
  else
    match s.error with
    | some msg => .errorView msg
    | none =>
      match s.data with
      | some d =>
        .readyView (renderHeader d) (renderChartArea s.chartData)
          (renderPerformance d) (renderChainGrid d)
      | none => .noData

/-- Snapshot with every field absent: the JS empty object. -/
def emptySnapshot : PumpSwapData :=
  ⟨none, none, none, none, none, none, none, none, none, none, none⟩

/-- Snapshot whose 24h change is present with value 0. -/
def dChangeZero : PumpSwapData :=
  ⟨some "PumpSwap", none, none, none, some 0, none, none, none, none, none, none⟩

/-- Snapshot whose three change fields are all present with value 0. -/
def dAllZero : PumpSwapData :=
  ⟨some "PumpSwap", none, none, none, some 0, some 0, some 0, none, none, none, none⟩

/-- Snapshot whose 24h change is present with value -3.456. -/
def dChangeNeg : PumpSwapData :=
  ⟨some "PumpSwap", none, none, none, some (Rat.divInt (-3456) 1000), none, none, none,
   none, none, none⟩

/-- Snapshot whose `tvl` is present with value 0. -/
def dTvlZero : PumpSwapData :=
  ⟨some "PumpSwap", none, some 0, none, none, none, none, none, none, none, none⟩

/-- Snapshot whose `tvl` is present with value 1234567. -/
def dTvlExample : PumpSwapData :=
  ⟨some "PumpSwap", none, some 1234567, none, none, none, none, none, none, none, none⟩

/-- Snapshot whose `chainTvls` holds the single chain `Solana ↦ 500000`. -/
def dSolana : PumpSwapData :=
  ⟨some "PumpSwap", none, none, some [("Solana", 500000)], none, none, none, none,
   none, none, none⟩

/-- The badge behaviour claimed for one change field, as amended: positive
values render green with the two-decimal percentage, negative values render
red with the two-decimal percentage, and an absent or zero value renders
`N/A` (red). -/
def badgeSpec (c : Option ℚ) (b : Badge) : Prop :=
  (∀ q, c = some q → 0 < q → b.green = true ∧ b.text = jsToFixed2 q ++ "%")
  ∧ (∀ q, c = some q → q < 0 → b.green = false ∧ b.text = jsToFixed2 q ++ "%")
  ∧ ((c = none ∨ c = some 0) → b.green = false ∧ b.text = "N/A")

/-- Helper: no event changes the `chartData` cell — `setChartData` has no
call site in the component. -/
lemma step_chartData (s : PageState) (e : PageEvent) : (step s e).chartData = s.chartData := by
  cases e <;> rfl

/-- Helper: folding any event sequence leaves `chartData` unchanged. -/
lemma foldl_chartData (es : List PageEvent) :
    ∀ s : PageState, (es.foldl step s).chartData = s.chartData := by
  induction es with
  | nil => intro s; rfl
  | cons e es ih => intro s; rw [List.foldl_cons, ih, step_chartData]

/-- Helper: one badge satisfies the amended badge behaviour. -/
lemma badgeSpec_changeBadge (c : Option ℚ) : badgeSpec c (changeBadge c) := by
  refine ⟨?_, ?_, ?_⟩
  · intro q hq h
    subst hq
    constructor
    · show (decide (q ≠ 0) && decide (0 ≤ q)) = true
      rw [decide_eq_true (ne_of_gt h), decide_eq_true (le_of_lt h)]
      rfl
    · show (if q ≠ 0 then jsToFixed2 q ++ "%" else "N/A") = jsToFixed2 q ++ "%"
      rw [if_pos (ne_of_gt h)]
  · intro q hq h
    subst hq
    constructor
    · show (decide (q ≠ 0) && decide (0 ≤ q)) = false
      rw [decide_eq_false (not_le.mpr h), Bool.and_false]
    · show (if q ≠ 0 then jsToFixed2 q ++ "%" else "N/A") = jsToFixed2 q ++ "%"
      rw [if_pos (ne_of_lt h)]
  · intro hc
    rcases hc with h | h <;> subst h
    · exact ⟨rfl, rfl⟩
    · exact ⟨rfl, rfl⟩

/-- C1: whenever the upstream fetch rejects, resolves with a non-2xx status,
or the body fails to parse, the proxy endpoint returns the JSON body
`{ error: "Failed to fetch data from DefiLlama" }` with HTTP status 500; and
every response the handler ever produces is either exactly that error
envelope or a 200 success. -/
theorem proxy_error_envelope (u : Option UpstreamResponse) :
    (u = none → GET u = ⟨500, errorEnvelope⟩)
    ∧ (∀ resp, u = some resp → ¬(200 ≤ resp.status ∧ resp.status ≤ 299) →
        GET u = ⟨500, errorEnvelope⟩)
    ∧ (GET u = ⟨500, errorEnvelope⟩ ∨ (GET u).status = 200) := by
  cases u with
  | none => exact ⟨fun _ => rfl, fun resp h => Option.noConfusion h, Or.inl rfl⟩
  | some resp =>
    refine ⟨fun h => Option.noConfusion h, ?_, ?_⟩
    · intro r hr hs
      simp only [Option.some.injEq] at hr
      subst hr
      simp [GET, hs]
    · by_cases hs : 200 ≤ resp.status ∧ resp.status ≤ 299
      · cases hb : resp.body with
        | some b => right; simp [GET, hs.1, hs.2, hb]
        | none => left; simp [GET, hs.1, hs.2, hb]
      · left; simp [GET, hs]

/-- C1 witness: a concrete 404 upstream response yields the error envelope. -/
theorem proxy_error_envelope_witness :
    GET (some ⟨404, none⟩) = ⟨500, errorEnvelope⟩ :=
  (proxy_error_envelope (some ⟨404, none⟩)).2.1 ⟨404, none⟩ rfl (by decide)

/-- C2: for every upstream response with a 2xx status and a valid JSON body
`B`, the proxy endpoint returns `B` unmodified with status 200, a 2xx
status. -/
theorem proxy_success_passthrough (resp : UpstreamResponse) (B : Json)
    (hok : 200 ≤ resp.status ∧ resp.status ≤ 299) (hbody : resp.body = some B) :
    GET (some resp) = ⟨200, B⟩
    ∧ 200 ≤ (GET (some resp)).status ∧ (GET (some resp)).status ≤ 299 := by
  have h : GET (some resp) = ⟨200, B⟩ := by
    simp [GET, hok.1, hok.2, hbody]
  exact ⟨h, by rw [h], by rw [h]; exact (by norm_num : (200:Nat) ≤ 299)⟩

/-- C2 witness: a concrete 200 upstream response with body `null` is passed
through unchanged. -/
theorem proxy_success_passthrough_witness :
    GET (some ⟨200, some Json.null⟩) = ⟨200, Json.null⟩
    ∧ 200 ≤ (GET (some ⟨200, some Json.null⟩)).status
    ∧ (GET (some ⟨200, some Json.null⟩)).status ≤ 299 :=
  proxy_success_passthrough ⟨200, some Json.null⟩ Json.null (by decide) rfl

/-- C3 counterexample: `change_1d` present with value `0` is nonnegative, yet
the 24h badge is styled red and shows `N/A`, contradicting the claim that a
present value `≥ 0` renders a green badge with the percentage. -/
theorem change_badge_zero_counterexample :
    dChangeZero.change_1d = some 0 ∧ (0:ℚ) ≤ 0
    ∧ (renderPerformance dChangeZero).1.green = false
    ∧ (renderPerformance dChangeZero).1.text = "N/A" :=
  ⟨rfl, le_refl 0, rfl, rfl⟩

/-- C3 (amended): for each of the three change fields, a present positive
value renders a green badge with the value to two decimal places followed by
`%`; a present negative value renders the same text with red styling; an
absent or zero value renders the literal `N/A` with red styling. -/
theorem change_badges (d : PumpSwapData) :
    badgeSpec d.change_1d (renderPerformance d).1
    ∧ badgeSpec d.change_7d (renderPerformance d).2.1
    ∧ badgeSpec d.change_1m (renderPerformance d).2.2 :=
  ⟨badgeSpec_changeBadge _, badgeSpec_changeBadge _, badgeSpec_changeBadge _⟩

/-- C3 witness: `change_1d = -3.456` renders the 24h badge red with text
`-3.46%`. -/
theorem change_badges_witness :
    (renderPerformance dChangeNeg).1.green = false
    ∧ (renderPerformance dChangeNeg).1.text = "-3.46%" := by
  have h := (change_badges dChangeNeg).1.2.1 (Rat.divInt (-3456) 1000) rfl (by decide)
  exact ⟨h.1, h.2.trans (by decide)⟩

/-- C4: in every reachable state of the detail page the chart-point list is
empty — it is initialised empty and no state transition writes to it — so
the chart renderer (`Line`) is never invoked. -/
theorem chart_state_never_populated (s : PageState) (h : reachable s) :
    s.chartData = [] ∧ ∀ c, renderChartArea s.chartData ≠ ChartArea.chart c := by
  obtain ⟨es, rfl⟩ := h
  have hc : (es.foldl step initialState).chartData = [] := foldl_chartData es initialState
  refine ⟨hc, ?_⟩
  intro c hcc
  rw [hc] at hcc
  exact ChartArea.noConfusion hcc

/-- C4 witness: the state after a successful fetch still has an empty
chart-point list and does not invoke the chart renderer. -/
theorem chart_state_never_populated_witness :
    (step initialState (PageEvent.fetchSuccess (some emptySnapshot))).chartData = []
    ∧ ∀ c, renderChartArea
        (step initialState (PageEvent.fetchSuccess (some emptySnapshot))).chartData
        ≠ ChartArea.chart c :=
  chart_state_never_populated _ ⟨[PageEvent.fetchSuccess (some emptySnapshot)], rfl⟩

/-- C5 counterexample: `tvl` present with value `0` is falsy in JS, so the
header's TVL block does not render, contradicting the claim that a present
`tvl` is always shown. -/
theorem header_tvl_zero_counterexample :
    dTvlZero.tvl = some 0 ∧ (renderHeader dTvlZero).tvlDisplay = none :=
  ⟨rfl, rfl⟩

/-- C5 (amended): the header title shows the protocol name field, and
whenever `tvl` is present and nonzero the header additionally shows it
formatted as en-US USD currency with zero fraction digits; in particular
`tvl = 1234567` formats as `$1,234,567`. -/
theorem header_render (d : PumpSwapData) :
    (renderHeader d).title = d.name
    ∧ (∀ v, d.tvl = some v → v ≠ 0 → (renderHeader d).tvlDisplay = some (formatCurrency v))
    ∧ formatCurrency 1234567 = "$1,234,567" := by
  refine ⟨rfl, ?_, by decide⟩
  intro v hv hnz
  simp [renderHeader, hv, hnz]

/-- C5 witness: a snapshot with `tvl = 1234567` renders the header with name
`PumpSwap` and TVL text `$1,234,567`. -/
theorem header_render_witness :
    (renderHeader dTvlExample).title = some "PumpSwap"
    ∧ (renderHeader dTvlExample).tvlDisplay = some "$1,234,567" := by
  have h := header_render dTvlExample
  refine ⟨h.1.trans rfl, ?_⟩
  have h2 := h.2.1 1234567 rfl (by decide)
  rw [h2, h.2.2]

/-- C6 counterexample: with an empty chart-point list the placeholder text
the page renders is `No chart data available`, which differs from the
claimed literal `No data chart available`. -/
theorem chart_placeholder_counterexample :
    renderChartArea [] = ChartArea.placeholder "No chart data available"
    ∧ "No chart data available" ≠ "No data chart available" :=
  ⟨rfl, by decide⟩

/-- C6 (amended): whenever the chart-point list is empty, the chart area
renders the literal placeholder text `No chart data available` and the chart
renderer is not invoked. -/
theorem chart_placeholder_text (cd : List ChartDataPoint) (h : cd = []) :
    renderChartArea cd = ChartArea.placeholder "No chart data available"
    ∧ ∀ c, renderChartArea cd ≠ ChartArea.chart c := by
  subst h
  exact ⟨rfl, fun c hcc => ChartArea.noConfusion hcc⟩

/-- C6 witness: the empty chart-point list itself. -/
theorem chart_placeholder_text_witness :
    renderChartArea [] = ChartArea.placeholder "No chart data available"
    ∧ ∀ c, renderChartArea [] ≠ ChartArea.chart c :=
  chart_placeholder_text [] rfl

/-- C7: for every chart-point list, the chart dataset is built from exactly
the last `min 30 length` entries in order — a suffix of the list of that
length — with labels their dates formatted by `formatDate` (en-US numeric
month/day) and a single dataset holding their `totalLiquidityUSD` values. -/
theorem chart_dataset_last30 (cd : List ChartDataPoint) :
    ∃ recent : List ChartDataPoint,
      (∃ pre, cd = pre ++ recent)
      ∧ recent.length = min 30 cd.length
      ∧ (prepareChartData cd).labels = recent.map (fun item => formatDate item.date)
      ∧ (prepareChartData cd).datasets
          = [⟨"Total Value Locked (TVL)", recent.map (fun item => item.totalLiquidityUSD)⟩] := by
  refine ⟨jsSliceLast cd 30,
    ⟨cd.take (cd.length - 30), (List.take_append_drop _ _).symm⟩, ?_, rfl, rfl⟩
  show (cd.drop (cd.length - 30)).length = min 30 cd.length
  rw [List.length_drop]
  omega

/-- C8 counterexample: a fetch that resolves with the empty object `{}` is
truthy in JS, so the page renders the ready-state content, not
`No data available`, contradicting the claim for empty snapshots. -/
theorem no_data_empty_object_counterexample :
    (step initialState (PageEvent.fetchSuccess (some emptySnapshot))).data = some emptySnapshot
    ∧ renderPage (step initialState (PageEvent.fetchSuccess (some emptySnapshot)))
        ≠ PageView.noData :=
  ⟨rfl, by decide⟩

/-- C8 (amended): whenever the fetch resolves successfully with a falsy
(`null`) snapshot and no error was recorded, the page shows the
`No data available` branch. -/
theorem no_data_on_null (s : PageState) (result : Option PumpSwapData)
    (herr : s.error = none) (hres : result = none) :
    renderPage (step s (PageEvent.fetchSuccess result)) = PageView.noData := by
  subst hres
  simp [renderPage, step, herr]

/-- C8 witness: from the initial state, a successful fetch of `null` shows
`No data available`. -/
theorem no_data_on_null_witness :
    renderPage (step initialState (PageEvent.fetchSuccess none)) = PageView.noData :=
  no_data_on_null initialState none rfl rfl

/-- C9: the chain-distribution grid renders if and only if `chainTvls` is
present with at least one entry, and it then shows exactly one card per
chain, labelled with the chain name and its value formatted as USD
currency. -/
theorem chain_grid (d : PumpSwapData) :
    ((renderChainGrid d).isSome ↔ ∃ l, d.chainTvls = some l ∧ l ≠ [])
    ∧ (∀ l, d.chainTvls = some l → l ≠ [] →
        renderChainGrid d = some (l.map (fun e => (e.1, formatCurrency e.2)))) := by
  constructor
  · cases hc : d.chainTvls with
    | none => simp [renderChainGrid, hc]
    | some l =>
      by_cases hl : 0 < l.length
      · simp [renderChainGrid, hc, hl]
        exact List.length_pos.mp hl
      · have hl0 : l = [] := by
          cases l with
          | nil => rfl
          | cons a t => exact absurd (Nat.succ_pos _) hl
        subst hl0
        simp [renderChainGrid, hc]
  · intro l hl hne
    simp [renderChainGrid, hl, List.length_pos.mpr hne]

/-- C9 witness: `chainTvls = { Solana: 500000 }` yields exactly one card
labelled `Solana` with value `$500,000`. -/
theorem chain_grid_witness :
    renderChainGrid dSolana = some [("Solana", "$500,000")] := by
  have h := (chain_grid dSolana).2 [("Solana", 500000)] rfl (by decide)
  exact h.trans (by decide)

/-- C10: a change field present with the exact value `0` renders its badge
identically to an absent field — literal `N/A` with red styling — because
presence is tested by JS truthiness. -/
theorem change_badge_zero_truthiness (d : PumpSwapData) :
    (d.change_1d = some 0 →
      (renderPerformance d).1 = changeBadge none ∧ (renderPerformance d).1 = ⟨false, "N/A"⟩)
    ∧ (d.change_7d = some 0 →
      (renderPerformance d).2.1 = changeBadge none ∧ (renderPerformance d).2.1 = ⟨false, "N/A"⟩)
    ∧ (d.change_1m = some 0 →
      (renderPerformance d).2.2 = changeBadge none ∧ (renderPerformance d).2.2 = ⟨false, "N/A"⟩) := by
  refine ⟨fun h => ?_, fun h => ?_, fun h => ?_⟩
  · rw [show (renderPerformance d).1 = changeBadge d.change_1d from rfl, h]
    exact ⟨rfl, rfl⟩
  · rw [show (renderPerformance d).2.1 = changeBadge d.change_7d from rfl, h]
    exact ⟨rfl, rfl⟩
  · rw [show (renderPerformance d).2.2 = changeBadge d.change_1m from rfl, h]
    exact ⟨rfl, rfl⟩

/-- C10 witness: a snapshot with all three change fields equal to `0`
renders all three badges as red `N/A`. -/
theorem change_badge_zero_truthiness_witness :
    (renderPerformance dAllZero).1 = ⟨false, "N/A"⟩
    ∧ (renderPerformance dAllZero).2.1 = ⟨false, "N/A"⟩
    ∧ (renderPerformance dAllZero).2.2 = ⟨false, "N/A"⟩ := by
  have h := change_badge_zero_truthiness dAllZero
  exact ⟨(h.1 rfl).2, (h.2.1 rfl).2, (h.2.2 rfl).2⟩
